import Mathlib

/-!
Verification of the circuit-breaker library (src/index.js) against its
natural-language specification.

The JavaScript module is embedded shallowly:

* the mutable `CircuitBreaker` object becomes the `Breaker` structure,
  updated functionally by each operation;
* promise outcomes of the wrapped operation are values of `Except ε α`
  (a bluebird timeout is just one more error value of type `ε`);
* the asynchronous continuation that `open()` schedules with
  `Promise.delay(resetTimeout)` is split off as `openResume`, which
  consumes the eventual outcome of `halfOpenCheck` (`Except ε Bool`);
* `this.emit(name)` is recorded by appending `name` to the `emitted` log.
-/

namespace Circuit

/-- The four breaker states of src/index.js
(strings CLOSED, OPEN, HALF_OPEN, HALF_CLOSED in the source). -/
inductive BState where
  | CLOSED
  | OPEN
  | HALF_OPEN
  | HALF_CLOSED
  deriving DecidableEq

/-- The mutable fields of a CircuitBreaker instance, over an error type ε.
The function-valued fields are the predicates installed at construction
(or the prototype defaults).  `emitted` is the log of EventEmitter
notifications, in emission order. -/
structure Breaker (ε : Type) where
  state : BState
  errorCount : Nat
  maxFailures : Nat
  minResetTimeout : Nat
  resetTimeout : Nat
  maxResetTimeout : Nat
  callTimeout : Nat
  errorMatch : ε → Bool
  errorIgnore : ε → Bool
  emitted : List String

variable {ε α : Type}

/-- CircuitBreaker.prototype.close (src/index.js lines 103-109):
state := CLOSED, errorCount := 0, resetTimeout := minResetTimeout,
emit "close". -/
def close (b : Breaker ε) : Breaker ε :=
  { b with
    state := .CLOSED
    errorCount := 0
    resetTimeout := b.minResetTimeout
    emitted := b.emitted ++ ["close"] }

/-- CircuitBreaker.prototype.halfOpen (lines 111-115):
state := HALF_OPEN, emit "halfOpen". -/
def halfOpen (b : Breaker ε) : Breaker ε :=
  { b with state := .HALF_OPEN, emitted := b.emitted ++ ["halfOpen"] }

/-- CircuitBreaker.prototype.halfClose (lines 117-121):
state := HALF_CLOSED, emit "halfClose". -/
def halfClose (b : Breaker ε) : Breaker ε :=
  { b with state := .HALF_CLOSED, emitted := b.emitted ++ ["halfClose"] }

/-- The synchronous prefix of CircuitBreaker.prototype.open
(lines 75-82): state := OPEN, emit "open",
resetTimeout := min(maxResetTimeout, resetTimeout * 2).  The second
component is the delay of the one-shot check the method then schedules
with Promise.delay(self.resetTimeout) — the value read AFTER the update. -/
def openCall (b : Breaker ε) : Breaker ε × Nat :=
  let b1 : Breaker ε :=
    { b with
      state := .OPEN
      emitted := b.emitted ++ ["open"]
      resetTimeout := min b.maxResetTimeout (b.resetTimeout * 2) }
  (b1, b1.resetTimeout)

/-- Result of CircuitBreaker.prototype.onError (lines 172-181).
`armedDelay` is `some d` when the body called open() (which scheduled a
delayed check after `d` ms); `thrown` is the error the final
`throw error` re-raises. -/
structure OnErrorOut (ε : Type) where
  breaker : Breaker ε
  armedDelay : Option Nat
  thrown : ε

/-- CircuitBreaker.prototype.onError (lines 172-181):
`if (this.errorMatch(error) && !this.errorIgnore(error)
     && ++this.errorCount > this.maxFailures) this.open();
 throw error;`
JavaScript short-circuits the conjunction, so errorCount is incremented
only when the first two conjuncts hold. -/
def onError (b : Breaker ε) (e : ε) : OnErrorOut ε :=
  if b.errorMatch e && !b.errorIgnore e then
    let b1 : Breaker ε := { b with errorCount := b.errorCount + 1 }
    if b1.maxFailures < b1.errorCount then
      let p := openCall b1
      { breaker := p.1, armedDelay := some p.2, thrown := e }
    else
      { breaker := b1, armedDelay := none, thrown := e }
  else
    { breaker := b, armedDelay := none, thrown := e }

/-- Result of the delayed continuation scheduled by open()
(lines 83-100).  `armedDelay` is the delay of a freshly scheduled
check, if any; `rejection` is the error with which the promise chain
returned by open() rejects, if it rejects. -/
structure OpenResumeOut (ε : Type) where
  breaker : Breaker ε
  armedDelay : Option Nat
  rejection : Option ε

/-- The continuation that open() runs once its Promise.delay fires
(lines 83-100), applied to the eventual outcome of halfOpenCheck():
resolve true → halfOpen(); resolve false → open() again (arming a new
delayed check); rejection → the .catch handler calls onError(err),
which re-throws, so the chain rejects with the original error. -/
def openResume (b : Breaker ε) (check : Except ε Bool) : OpenResumeOut ε :=
  match check with
  | .ok true => { breaker := halfOpen b, armedDelay := none, rejection := none }
  | .ok false =>
      let p := openCall b
      { breaker := p.1, armedDelay := some p.2, rejection := none }
  | .error e =>
      let r := onError b e
      { breaker := r.breaker, armedDelay := r.armedDelay, rejection := some r.thrown }

/-- The message carried by every CircuitOpenError (lines 183-187). -/
def circuitOpenMessage : String := "Circuit breaker is open"

/-- How a call through execute settles, as seen by the caller. -/
inductive ExecResult (ε α : Type) where
  | value (a : α)
  | opError (e : ε)
  | circuitOpen (msg : String)
  deriving DecidableEq

/-- Result of CircuitBreaker.prototype.execute.  `invoked` records
whether `fn.apply(null, args)` was evaluated; `armedDelay` is the delay
of a check scheduled by an open() reached through onError, if any. -/
structure ExecOut (ε α : Type) where
  breaker : Breaker ε
  invoked : Bool
  result : ExecResult ε α
  armedDelay : Option Nat

/-- The synchronous prefix of CircuitBreaker.prototype.execute
(lines 123-148): the state switch, and — in the HALF_OPEN case — the
halfClose() performed on line 134 before fn is applied on line 135.
The Bool records whether the branch goes on to invoke fn. -/
def executeSync (b : Breaker ε) : Breaker ε × Bool :=
  match b.state with
  | .OPEN => (b, false)
  | .HALF_CLOSED => (b, false)
  | .HALF_OPEN => (halfClose b, true)
  | .CLOSED => (b, true)

/-- CircuitBreaker.prototype.execute (lines 123-148).  `outcome` is how
`Promise.resolve(fn.apply(null, args)).timeout(callTimeout)` settles
(a timeout rejection is an ordinary error value of ε):
OPEN / HALF_CLOSED → reject with a CircuitOpenError, fn not invoked;
HALF_OPEN → halfClose(), invoke fn, on success closeAndResolve
(close() then resolve the value), on failure onError;
CLOSED → invoke fn, on success resolve the value, on failure onError. -/
def execute (b : Breaker ε) (outcome : Except ε α) : ExecOut ε α :=
  match b.state with
  | .OPEN =>
      { breaker := b, invoked := false
        result := .circuitOpen circuitOpenMessage, armedDelay := none }
  | .HALF_CLOSED =>
      { breaker := b, invoked := false
        result := .circuitOpen circuitOpenMessage, armedDelay := none }
  | .HALF_OPEN =>
      let b1 := halfClose b
      match outcome with
      | .ok v =>
          { breaker := close b1, invoked := true
            result := .value v, armedDelay := none }
      | .error e =>
          let r := onError b1 e
          { breaker := r.breaker, invoked := true
            result := .opError r.thrown, armedDelay := r.armedDelay }
  | .CLOSED =>
      match outcome with
      | .ok v =>
          { breaker := b, invoked := true
            result := .value v, armedDelay := none }
      | .error e =>
          let r := onError b e
          { breaker := r.breaker, invoked := true
            result := .opError r.thrown, armedDelay := r.armedDelay }

/-- Constructor options (src/index.js lines 8-44); `none` stands for a
property that is absent (JavaScript `undefined`). -/
structure Opts (ε : Type) where
  maxFailures : Option Nat := none
  resetTimeout : Option Nat := none
  maxResetTimeout : Option Nat := none
  callTimeout : Option Nat := none
  errorMatch : Option (ε → Bool) := none
  errorIgnore : Option (ε → Bool) := none

/-- JavaScript defaulting `v || d` for a numeric option: both an absent
property and 0 are falsy and fall back to the default. -/
def jsNumOr (v : Option Nat) (d : Nat) : Nat :=
  match v with
  | some n => if n = 0 then d else n
  | none => d

/-- The CircuitBreaker constructor (lines 8-56):
maxFailures := opts.maxFailures === undefined ? 5 : opts.maxFailures;
minResetTimeout := Math.max(1, opts.resetTimeout || 500);
maxResetTimeout := opts.maxResetTimeout || 300000;
resetTimeout := minResetTimeout;
callTimeout := opts.callTimeout || 5000;
then this.close() (line 27).  Predicate options override the prototype
defaults (errorMatch: always true, errorIgnore: always false); the
installation order relative to close() does not matter because close()
does not read them. -/
def construct (opts : Opts ε) : Breaker ε :=
  let b0 : Breaker ε :=
    { state := .CLOSED
      errorCount := 0
      maxFailures := match opts.maxFailures with | some v => v | none => 5
      minResetTimeout := max 1 (jsNumOr opts.resetTimeout 500)
      resetTimeout := max 1 (jsNumOr opts.resetTimeout 500)
      maxResetTimeout := jsNumOr opts.maxResetTimeout 300000
      callTimeout := jsNumOr opts.callTimeout 5000
      errorMatch := opts.errorMatch.getD (fun _ => true)
      errorIgnore := opts.errorIgnore.getD (fun _ => false)
      emitted := [] }
  close b0

/-- One public operation on a breaker, used to quantify over every
way the object can be driven (Section 6 of the spec). -/
inductive Op (ε α : Type) where
  | executeOp (outcome : Except ε α)
  | openOp
  | closeOp
  | halfOpenOp
  | halfCloseOp
  | onErrorOp (e : ε)
  | delayedCheckOp (check : Except ε Bool)

/-- The breaker state after one operation. -/
def applyOp (b : Breaker ε) (op : Op ε α) : Breaker ε :=
  match op with
  | .executeOp o => (execute b o).breaker
  | .openOp => (openCall b).1
  | .closeOp => close b
  | .halfOpenOp => halfOpen b
  | .halfCloseOp => halfClose b
  | .onErrorOp e => (onError b e).breaker
  | .delayedCheckOp c => (openResume b c).breaker

/-- Iterated reporting of the same failing outcome through execute:
`failTimes b e n` is the breaker after n calls to
`execute(failingOperation)` where each call settles with error e. -/
def failTimes (b : Breaker ε) (e : ε) : Nat → Breaker ε
  | 0 => b
  | n + 1 => (execute (failTimes b e n) (Except.error e) : ExecOut ε Unit).breaker

/-! Concrete fixtures, built through the public surface, used to
evaluate the theorems on closed inputs. -/

/-- A breaker built by `new CircuitBreaker()` (all options defaulted),
with Nat as the error type. -/
def cbDefault : Breaker Nat := construct {}

/-- A default breaker on which open() was called directly, as in the
repository's own tests. -/
def cbTripped : Breaker Nat := (openCall cbDefault).1

/-- A default breaker moved to HALF_OPEN through the public halfOpen()
transition, awaiting a probe. -/
def cbProbing : Breaker Nat := halfOpen cbDefault

/-- A breaker that tripped by exceeding the failure threshold: two
classified failures with maxFailures = 1. -/
def cbWorn : Breaker Nat := failTimes (construct { maxFailures := some 1 }) 0 2

/-- A breaker constructed with maxFailures = 2, otherwise defaulted. -/
def cbMax2 : Breaker Nat := construct { maxFailures := some 2 }

/-- A tripped breaker (errorCount = 2 > maxFailures = 1) moved to
HALF_OPEN, as the recovery prober does when halfOpenCheck resolves
true. -/
def cbWornProbing : Breaker Nat := halfOpen cbWorn

/-! Helper lemmas.  They unfold each operation under the hypotheses
that fix which branch of the source code runs. -/

lemma drop_self_append {β : Type} (l l' : List β) : (l ++ l').drop l.length = l' := by
  induction l with
  | nil => simp
  | cons a t ih => simp [ih]

lemma onError_thrown (b : Breaker ε) (e : ε) : (onError b e).thrown = e := by
  by_cases hc : (b.errorMatch e && !b.errorIgnore e) = true
  · by_cases ht : b.maxFailures < b.errorCount + 1
    · simp [onError, hc, ht]
    · simp [onError, hc, ht]
  · have hc' : (b.errorMatch e && !b.errorIgnore e) = false := by
      revert hc
      cases b.errorMatch e && !b.errorIgnore e <;> simp
    simp [onError, hc']

lemma openCall_fst (b : Breaker ε) :
    (openCall b).1 =
      { b with
        state := .OPEN
        emitted := b.emitted ++ ["open"]
        resetTimeout := min b.maxResetTimeout (b.resetTimeout * 2) } := rfl

lemma openCall_snd (b : Breaker ε) :
    (openCall b).2 = min b.maxResetTimeout (b.resetTimeout * 2) := rfl

lemma onError_unclassified (b : Breaker ε) (e : ε)
    (h : (b.errorMatch e && !b.errorIgnore e) = false) :
    onError b e = { breaker := b, armedDelay := none, thrown := e } := by
  simp [onError, h]

lemma onError_noTrip (b : Breaker ε) (e : ε)
    (hm : b.errorMatch e = true) (hi : b.errorIgnore e = false)
    (hle : b.errorCount + 1 ≤ b.maxFailures) :
    onError b e =
      { breaker := { b with errorCount := b.errorCount + 1 }
        armedDelay := none, thrown := e } := by
  simp [onError, hm, hi, show ¬ b.maxFailures < b.errorCount + 1 by omega]

lemma onError_trip (b : Breaker ε) (e : ε)
    (hm : b.errorMatch e = true) (hi : b.errorIgnore e = false)
    (hgt : b.maxFailures < b.errorCount + 1) :
    onError b e =
      { breaker := (openCall { b with errorCount := b.errorCount + 1 }).1
        armedDelay := some (openCall { b with errorCount := b.errorCount + 1 }).2
        thrown := e } := by
  simp [onError, hm, hi, hgt]

lemma execute_open (b : Breaker ε) (o : Except ε α) (h : b.state = .OPEN) :
    execute b o =
      { breaker := b, invoked := false
        result := .circuitOpen circuitOpenMessage, armedDelay := none } := by
  simp [execute, h]

lemma execute_halfClosed (b : Breaker ε) (o : Except ε α) (h : b.state = .HALF_CLOSED) :
    execute b o =
      { breaker := b, invoked := false
        result := .circuitOpen circuitOpenMessage, armedDelay := none } := by
  simp [execute, h]

lemma execute_halfOpen_ok (b : Breaker ε) (v : α) (h : b.state = .HALF_OPEN) :
    execute b (Except.ok v) =
      { breaker := close (halfClose b), invoked := true
        result := .value v, armedDelay := none } := by
  simp [execute, h]

lemma execute_halfOpen_error (b : Breaker ε) (e : ε) (h : b.state = .HALF_OPEN) :
    (execute b (Except.error e) : ExecOut ε α) =
      { breaker := (onError (halfClose b) e).breaker, invoked := true
        result := .opError (onError (halfClose b) e).thrown
        armedDelay := (onError (halfClose b) e).armedDelay } := by
  simp [execute, h]

lemma execute_closed_ok (b : Breaker ε) (v : α) (h : b.state = .CLOSED) :
    execute b (Except.ok v) =
      { breaker := b, invoked := true, result := .value v, armedDelay := none } := by
  simp [execute, h]

lemma execute_closed_error (b : Breaker ε) (e : ε) (h : b.state = .CLOSED) :
    (execute b (Except.error e) : ExecOut ε α) =
      { breaker := (onError b e).breaker, invoked := true
        result := .opError (onError b e).thrown
        armedDelay := (onError b e).armedDelay } := by
  simp [execute, h]

lemma failTimes_invariant (b : Breaker ε) (e : ε)
    (hst : b.state = .CLOSED) (hcnt : b.errorCount = 0)
    (hm : b.errorMatch e = true) (hi : b.errorIgnore e = false) :
    ∀ k, k ≤ b.maxFailures →
      (failTimes b e k).state = .CLOSED
      ∧ (failTimes b e k).errorCount = k
      ∧ (failTimes b e k).maxFailures = b.maxFailures
      ∧ (failTimes b e k).errorMatch = b.errorMatch
      ∧ (failTimes b e k).errorIgnore = b.errorIgnore := by
  intro k
  induction k with
  | zero => exact fun _ => ⟨hst, hcnt, rfl, rfl, rfl⟩
  | succ n ih =>
      intro hle
      obtain ⟨h1, h2, h3, h4, h5⟩ := ih (Nat.le_of_succ_le hle)
      have hmn : (failTimes b e n).errorMatch e = true := by rw [h4]; exact hm
      have hin : (failTimes b e n).errorIgnore e = false := by rw [h5]; exact hi
      have hleN : (failTimes b e n).errorCount + 1 ≤ (failTimes b e n).maxFailures := by
        rw [h2, h3]; omega
      have hstep : failTimes b e (n + 1) =
          { failTimes b e n with errorCount := (failTimes b e n).errorCount + 1 } := by
        show (execute (failTimes b e n) (Except.error e) : ExecOut ε Unit).breaker = _
        rw [execute_closed_error _ e h1, onError_noTrip _ e hmn hin hleN]
      rw [hstep]
      refine ⟨h1, ?_, h3, h4, h5⟩
      show (failTimes b e n).errorCount + 1 = n + 1
      rw [h2]

lemma execute_halfOpen_error_classified (b : Breaker ε) (e : ε)
    (hst : b.state = .HALF_OPEN)
    (hm : b.errorMatch e = true) (hi : b.errorIgnore e = false) :
    (execute b (Except.error e) : ExecOut ε α).breaker =
      if b.maxFailures < b.errorCount + 1 then
        (openCall { halfClose b with errorCount := b.errorCount + 1 }).1
      else { halfClose b with errorCount := b.errorCount + 1 } := by
  rw [execute_halfOpen_error b e hst]
  by_cases ht : b.maxFailures < b.errorCount + 1
  · rw [onError_trip (halfClose b) e hm hi ht, if_pos ht]
    rfl
  · rw [onError_noTrip (halfClose b) e hm hi (Nat.not_lt.mp ht), if_neg ht]
    rfl

lemma onError_step_facts (b : Breaker ε) (e : ε) :
    ((onError b e).breaker.emitted = b.emitted ∨
      (onError b e).breaker.emitted = b.emitted ++ ["open"])
    ∧ b.errorCount ≤ (onError b e).breaker.errorCount := by
  by_cases hc : (b.errorMatch e && !b.errorIgnore e) = true
  · simp only [Bool.and_eq_true, Bool.not_eq_true'] at hc
    obtain ⟨hm, hi⟩ := hc
    by_cases ht : b.maxFailures < b.errorCount + 1
    · rw [onError_trip b e hm hi ht]
      exact ⟨Or.inr rfl, Nat.le_succ _⟩
    · rw [onError_noTrip b e hm hi (Nat.not_lt.mp ht)]
      exact ⟨Or.inl rfl, Nat.le_succ _⟩
  · have hc' : (b.errorMatch e && !b.errorIgnore e) = false := by
      revert hc
      cases b.errorMatch e && !b.errorIgnore e <;> simp
    rw [onError_unclassified b e hc']
    exact ⟨Or.inl rfl, Nat.le_refl _⟩

lemma c9_nonclose (b b' : Breaker ε) (l : List String)
    (hem : b'.emitted = b.emitted ++ l) (hno : "close" ∉ l)
    (hcnt : b.errorCount ≤ b'.errorCount) :
    ("close" ∈ b'.emitted.drop b.emitted.length →
      (b'.errorCount = 0 ∧ b'.state = .CLOSED))
    ∧ ("close" ∉ b'.emitted.drop b.emitted.length →
      b.errorCount ≤ b'.errorCount) := by
  rw [hem, drop_self_append]
  exact ⟨fun h => absurd h hno, fun _ => hcnt⟩

/-! Claim theorems. -/

/-- Claim C1: starting from CLOSED with errorCount 0, the first
maxFailures consecutive classified failures reported through execute
leave the state CLOSED (with errorCount equal to the number of failures
seen), and the (maxFailures + 1)-th failure makes the state OPEN. -/
theorem spec_C1 (b : Breaker ε) (e : ε)
    (hst : b.state = .CLOSED) (hcnt : b.errorCount = 0)
    (hm : b.errorMatch e = true) (hi : b.errorIgnore e = false) :
    (∀ k, k ≤ b.maxFailures →
        (failTimes b e k).state = .CLOSED ∧ (failTimes b e k).errorCount = k)
    ∧ (failTimes b e (b.maxFailures + 1)).state = .OPEN := by
  have H := failTimes_invariant b e hst hcnt hm hi
  refine ⟨fun k hk => ⟨(H k hk).1, (H k hk).2.1⟩, ?_⟩
  obtain ⟨h1, h2, h3, h4, h5⟩ := H b.maxFailures (le_refl _)
  have hmn : (failTimes b e b.maxFailures).errorMatch e = true := by rw [h4]; exact hm
  have hin : (failTimes b e b.maxFailures).errorIgnore e = false := by rw [h5]; exact hi
  have hgt : (failTimes b e b.maxFailures).maxFailures <
      (failTimes b e b.maxFailures).errorCount + 1 := by
    rw [h2, h3]; omega
  show (execute (failTimes b e b.maxFailures) (Except.error e) : ExecOut ε Unit).breaker.state
      = .OPEN
  rw [execute_closed_error _ e h1, onError_trip _ e hmn hin hgt, openCall_fst]

/-- Witness for C1 with maxFailures = 2: two classified failures leave
the breaker CLOSED at errorCount 2, the third makes it OPEN. -/
theorem spec_C1_w :
    cbMax2.state = BState.CLOSED ∧ cbMax2.errorCount = 0 ∧ cbMax2.maxFailures = 2
    ∧ (failTimes cbMax2 0 2).state = BState.CLOSED
    ∧ (failTimes cbMax2 0 2).errorCount = 2
    ∧ (failTimes cbMax2 0 3).state = BState.OPEN :=
  ⟨rfl, rfl, rfl,
   ((spec_C1 cbMax2 0 rfl rfl rfl rfl).1 2 (by decide)).1,
   ((spec_C1 cbMax2 0 rfl rfl rfl rfl).1 2 (by decide)).2,
   (spec_C1 cbMax2 0 rfl rfl rfl rfl).2⟩

/-- Counterexample for C4 as stated: a breaker moved to HALF_OPEN by
the public halfOpen() with errorCount 0 and maxFailures 5 starts a
probe whose failure IS classified (the default predicates match every
error), yet the resulting state is HALF_CLOSED, not OPEN — because
onError only calls open() when the incremented errorCount exceeds
maxFailures. -/
theorem spec_C4_cex :
    cbProbing.state = BState.HALF_OPEN
    ∧ cbProbing.errorMatch 0 = true
    ∧ cbProbing.errorIgnore 0 = false
    ∧ (execute cbProbing (Except.error 0) : ExecOut Nat Unit).invoked = true
    ∧ (execute cbProbing (Except.error 0) : ExecOut Nat Unit).breaker.state
        = BState.HALF_CLOSED
    ∧ BState.HALF_CLOSED ≠ BState.OPEN := by
  refine ⟨rfl, rfl, rfl, rfl, by decide, by decide⟩

/-- Claim C4, amended: from HALF_OPEN, probe success drives the breaker
to CLOSED with errorCount 0; a classified probe failure increments
errorCount and drives the breaker to OPEN exactly when the incremented
count exceeds maxFailures (always the case when HALF_OPEN was reached
by tripping, since errorCount is not reset before CLOSED); otherwise
the breaker stays HALF_CLOSED. -/
theorem spec_C4_amended (b : Breaker ε) (v : α) (e : ε)
    (hst : b.state = .HALF_OPEN)
    (hm : b.errorMatch e = true) (hi : b.errorIgnore e = false) :
    ((execute b (Except.ok v)).breaker.state = .CLOSED
      ∧ (execute b (Except.ok v)).breaker.errorCount = 0)
    ∧ ((execute b (Except.error e) : ExecOut ε α).breaker.state = .OPEN
        ↔ b.maxFailures ≤ b.errorCount)
    ∧ (b.errorCount + 1 ≤ b.maxFailures →
        (execute b (Except.error e) : ExecOut ε α).breaker.state = .HALF_CLOSED) := by
  refine ⟨?_, ?_, ?_⟩
  · rw [execute_halfOpen_ok b v hst]
    exact ⟨rfl, rfl⟩
  · rw [execute_halfOpen_error_classified b e hst hm hi]
    by_cases ht : b.maxFailures < b.errorCount + 1
    · rw [if_pos ht]
      have hO : ((openCall { halfClose b with errorCount := b.errorCount + 1 }).1).state
          = BState.OPEN := rfl
      rw [hO]
      simp only [true_iff]
      omega
    · rw [if_neg ht]
      have hH : ({ halfClose b with errorCount := b.errorCount + 1 } : Breaker ε).state
          = BState.HALF_CLOSED := rfl
      rw [hH]
      constructor
      · intro hcontra
        exact absurd hcontra (by decide)
      · intro hle
        omega
  · intro hle
    rw [execute_halfOpen_error_classified b e hst hm hi, if_neg (by omega)]
    rfl

/-- Witness for C4 on a breaker that tripped normally (errorCount 2,
maxFailures 1) and was moved to HALF_OPEN: probe success closes the
circuit and clears the count; a classified probe failure re-opens it. -/
theorem spec_C4_w :
    cbWornProbing.state = BState.HALF_OPEN
    ∧ cbWornProbing.maxFailures ≤ cbWornProbing.errorCount
    ∧ (execute cbWornProbing (Except.ok (42 : Nat))).breaker.state = BState.CLOSED
    ∧ (execute cbWornProbing (Except.ok (42 : Nat))).breaker.errorCount = 0
    ∧ ((execute cbWornProbing (Except.error 0) : ExecOut Nat Nat).breaker.state = BState.OPEN
        ↔ cbWornProbing.maxFailures ≤ cbWornProbing.errorCount) :=
  ⟨rfl, by decide,
   (spec_C4_amended cbWornProbing 42 0 rfl rfl rfl).1.1,
   (spec_C4_amended cbWornProbing 42 0 rfl rfl rfl).1.2,
   (spec_C4_amended cbWornProbing 42 0 rfl rfl rfl).2.1⟩

/-- Claim C5: while HALF_OPEN, the synchronous prefix of the first
execute call flips the state to HALF_CLOSED before the operation is
invoked (and it is invoked, whatever the outcome); a second execute
call arriving on the resulting breaker is rejected with a
CircuitOpenError without invoking its operation. -/
theorem spec_C5 (b : Breaker ε) (o₂ : Except ε α) (hst : b.state = .HALF_OPEN) :
    (executeSync b).2 = true
    ∧ (executeSync b).1.state = .HALF_CLOSED
    ∧ (∀ o : Except ε α, (execute b o).invoked = true)
    ∧ execute (executeSync b).1 o₂ =
        { breaker := (executeSync b).1, invoked := false
          result := .circuitOpen circuitOpenMessage, armedDelay := none } := by
  have hsync : executeSync b = (halfClose b, true) := by simp [executeSync, hst]
  refine ⟨by rw [hsync], by rw [hsync]; rfl, ?_, ?_⟩
  · intro o
    cases o with
    | ok v => rw [execute_halfOpen_ok b v hst]
    | error e => rw [execute_halfOpen_error b e hst]
  · rw [hsync]
    exact execute_halfClosed (halfClose b) o₂ rfl

/-- Witness for C5 at a concrete HALF_OPEN breaker: the probe call
flips the state and the overlapping second call is rejected. -/
theorem spec_C5_w :
    cbProbing.state = BState.HALF_OPEN
    ∧ (executeSync cbProbing).2 = true
    ∧ (executeSync cbProbing).1.state = BState.HALF_CLOSED
    ∧ execute (executeSync cbProbing).1 (Except.ok (5 : Nat)) =
        { breaker := (executeSync cbProbing).1, invoked := false
          result := .circuitOpen circuitOpenMessage, armedDelay := none } :=
  ⟨rfl, (spec_C5 cbProbing (Except.ok (5 : Nat)) rfl).1,
   (spec_C5 cbProbing (Except.ok (5 : Nat)) rfl).2.1,
   (spec_C5 cbProbing (Except.ok (5 : Nat)) rfl).2.2.2⟩

/-- Claim C2: for every breaker in state OPEN or HALF_CLOSED and every
operation outcome, execute never invokes the supplied operation and
yields a rejection with a CircuitOpenError, leaving the breaker's state
and counters unchanged (the returned breaker is the input breaker). -/
theorem spec_C2 (b : Breaker ε) (outcome : Except ε α)
    (h : b.state = .OPEN ∨ b.state = .HALF_CLOSED) :
    execute b outcome =
      { breaker := b, invoked := false
        result := .circuitOpen circuitOpenMessage, armedDelay := none } := by
  rcases h with h | h
  · exact execute_open b outcome h
  · exact execute_halfClosed b outcome h

/-- Witness for C2 at a concrete OPEN breaker and a would-be-successful
operation. -/
theorem spec_C2_w :
    cbTripped.state = BState.OPEN ∧
    execute cbTripped (Except.ok (7 : Nat)) =
      { breaker := cbTripped, invoked := false
        result := .circuitOpen circuitOpenMessage, armedDelay := none } :=
  ⟨rfl, spec_C2 cbTripped (Except.ok 7) (Or.inl rfl)⟩

/-- Claim C3: onError increments errorCount iff errorMatch(e) is true
and errorIgnore(e) is false; after the (possible) increment it triggers
open() exactly when errorCount exceeds maxFailures; it always re-raises
the original error; and an unclassified failure leaves the breaker
unchanged. -/
theorem spec_C3 (b : Breaker ε) (e : ε) :
    (onError b e).thrown = e
    ∧ ((b.errorMatch e && !b.errorIgnore e) = true →
        (onError b e).breaker.errorCount = b.errorCount + 1
        ∧ ((onError b e).armedDelay.isSome ↔ b.maxFailures < b.errorCount + 1)
        ∧ ((onError b e).armedDelay.isSome → (onError b e).breaker.state = .OPEN))
    ∧ ((b.errorMatch e && !b.errorIgnore e) = false →
        (onError b e).breaker = b ∧ (onError b e).armedDelay = none) := by
  refine ⟨onError_thrown b e, fun hc => ?_, fun hc => ?_⟩
  · simp only [Bool.and_eq_true, Bool.not_eq_true'] at hc
    obtain ⟨hm, hi⟩ := hc
    by_cases ht : b.maxFailures < b.errorCount + 1
    · rw [onError_trip b e hm hi ht]
      exact ⟨rfl, by simp [ht], fun _ => rfl⟩
    · rw [onError_noTrip b e hm hi (by omega)]
      simpa using ht
  · rw [onError_unclassified b e hc]
    exact ⟨rfl, rfl⟩

/-- Witness for C3: on a fresh default breaker every error is
classified, a single error increments the count from 0 to 1 without
tripping, and the error is rethrown. -/
theorem spec_C3_w :
    (cbDefault.errorMatch 9 && !cbDefault.errorIgnore 9) = true
    ∧ (onError cbDefault 9).thrown = 9
    ∧ (onError cbDefault 9).breaker.errorCount = cbDefault.errorCount + 1
    ∧ ((onError cbDefault 9).armedDelay.isSome ↔ cbDefault.maxFailures < cbDefault.errorCount + 1) :=
  ⟨rfl, (spec_C3 cbDefault 9).1, ((spec_C3 cbDefault 9).2.1 rfl).1,
    ((spec_C3 cbDefault 9).2.1 rfl).2.1⟩

/-- Claim C6: every entry into open() updates resetTimeout to
min(maxResetTimeout, previous resetTimeout * 2) — and that is also the
delay armed for the scheduled check — while close() resets resetTimeout
to minResetTimeout. -/
theorem spec_C6 (b : Breaker ε) :
    (openCall b).1.resetTimeout = min b.maxResetTimeout (b.resetTimeout * 2)
    ∧ (openCall b).2 = min b.maxResetTimeout (b.resetTimeout * 2)
    ∧ (close b).resetTimeout = b.minResetTimeout :=
  ⟨rfl, rfl, rfl⟩

/-- Claim C10: for every options object a newly constructed breaker
starts CLOSED with errorCount 0 and resetTimeout = minResetTimeout,
where minResetTimeout is max(1, opts.resetTimeout) when that option is
truthy and 500 otherwise; constructing with resetTimeout 0 yields
minResetTimeout 500; and the constructor itself emits exactly one
"close" notification. -/
theorem spec_C10 (opts : Opts ε) :
    (construct opts).state = .CLOSED
    ∧ (construct opts).errorCount = 0
    ∧ (construct opts).resetTimeout = (construct opts).minResetTimeout
    ∧ (construct opts).minResetTimeout =
        (match opts.resetTimeout with
         | some v => if v = 0 then 500 else max 1 v
         | none => 500)
    ∧ (construct { opts with resetTimeout := some 0 }).minResetTimeout = 500
    ∧ (construct opts).emitted = ["close"] := by
  refine ⟨rfl, rfl, rfl, ?_, by simp [construct, close, jsNumOr], rfl⟩
  cases hrt : opts.resetTimeout with
  | none => simp [construct, close, jsNumOr, hrt]
  | some v =>
      by_cases hv : v = 0
      · simp [construct, close, jsNumOr, hrt, hv]
      · simp [construct, close, jsNumOr, hrt, hv]

/-- Counterexample for C7 as stated: on a freshly opened default
breaker (errorCount 0, maxFailures 5) a halfOpenCheck rejection is
routed to onError, which emits nothing at all — in particular no
"error" notification — arms no new delayed check (the circuit is stuck
OPEN), and rethrows the error into the promise chain returned by
open() (the repository's own test attaches a catch handler to that
promise). -/
theorem spec_C7_cex :
    cbTripped.state = BState.OPEN
    ∧ (openResume cbTripped (Except.error 42)).breaker.emitted = cbTripped.emitted
    ∧ "error" ∉ (openResume cbTripped (Except.error 42)).breaker.emitted
    ∧ (openResume cbTripped (Except.error 42)).armedDelay = none
    ∧ (openResume cbTripped (Except.error 42)).rejection = some 42 := by
  refine ⟨rfl, by decide, by decide, by decide, by decide⟩

/-- Claim C7, amended: a rejection from halfOpenCheck during OPEN-state
probing is routed to onError; no notification is emitted (there is no
"error" notification in this module); the circuit remains OPEN; the
error is rethrown into the internal promise chain (so the promise
returned by open() rejects with it, unobserved by any execute caller);
and a new delayed check is armed iff the rejection error is classified
and the incremented errorCount exceeds maxFailures. -/
theorem spec_C7_amended (b : Breaker ε) (e : ε) (hst : b.state = .OPEN) :
    (openResume b (Except.error e)).breaker.state = .OPEN
    ∧ "error" ∉ (openResume b (Except.error e)).breaker.emitted.drop b.emitted.length
    ∧ (openResume b (Except.error e)).rejection = some e
    ∧ ((openResume b (Except.error e)).armedDelay.isSome = true ↔
        ((b.errorMatch e && !b.errorIgnore e) = true
          ∧ b.maxFailures < b.errorCount + 1)) := by
  have hres : openResume b (Except.error e) =
      { breaker := (onError b e).breaker, armedDelay := (onError b e).armedDelay
        rejection := some (onError b e).thrown } := rfl
  rw [hres]
  by_cases hc : (b.errorMatch e && !b.errorIgnore e) = true
  · have hcc := hc
    simp only [Bool.and_eq_true, Bool.not_eq_true'] at hcc
    obtain ⟨hm, hi⟩ := hcc
    by_cases ht : b.maxFailures < b.errorCount + 1
    · rw [onError_trip b e hm hi ht]
      refine ⟨rfl, ?_, rfl, ?_⟩
      · show "error" ∉ (b.emitted ++ ["open"]).drop b.emitted.length
        rw [drop_self_append]
        decide
      · exact ⟨fun _ => ⟨hc, ht⟩, fun _ => rfl⟩
    · rw [onError_noTrip b e hm hi (Nat.not_lt.mp ht)]
      refine ⟨hst, ?_, rfl, by simp [ht]⟩
      show "error" ∉ b.emitted.drop b.emitted.length
      rw [List.drop_length]
      simp
  · have hc' : (b.errorMatch e && !b.errorIgnore e) = false := by
      revert hc
      cases b.errorMatch e && !b.errorIgnore e <;> simp
    rw [onError_unclassified b e hc']
    refine ⟨hst, ?_, rfl, by simp [hc']⟩
    show "error" ∉ b.emitted.drop b.emitted.length
    rw [List.drop_length]
    simp

/-- Witness for C7 (amended) at a concrete OPEN breaker. -/
theorem spec_C7_w :
    cbTripped.state = BState.OPEN
    ∧ (openResume cbTripped (Except.error 7)).breaker.state = BState.OPEN
    ∧ "error" ∉
        (openResume cbTripped (Except.error 7)).breaker.emitted.drop cbTripped.emitted.length
    ∧ (openResume cbTripped (Except.error 7)).rejection = some 7 :=
  ⟨rfl, (spec_C7_amended cbTripped 7 rfl).1, (spec_C7_amended cbTripped 7 rfl).2.1,
   (spec_C7_amended cbTripped 7 rfl).2.2.1⟩

/-- Claim C8: when the breaker is OPEN and the armed delayed check runs
a halfOpenCheck that resolves false, the state remains OPEN, no
halfOpen notification occurs, and another delayed check is armed to
fire after the newly doubled (and capped) resetTimeout. -/
theorem spec_C8 (b : Breaker ε) (_hst : b.state = .OPEN) :
    (openResume b (Except.ok false)).breaker.state = .OPEN
    ∧ (openResume b (Except.ok false)).armedDelay =
        some (min b.maxResetTimeout (b.resetTimeout * 2))
    ∧ (openResume b (Except.ok false)).breaker.resetTimeout =
        min b.maxResetTimeout (b.resetTimeout * 2)
    ∧ "halfOpen" ∉ (openResume b (Except.ok false)).breaker.emitted.drop b.emitted.length
    ∧ (openResume b (Except.ok false)).rejection = none := by
  refine ⟨rfl, rfl, rfl, ?_, rfl⟩
  show "halfOpen" ∉ (b.emitted ++ ["open"]).drop b.emitted.length
  rw [drop_self_append]
  decide

/-- Witness for C8 at a concrete OPEN breaker. -/
theorem spec_C8_w :
    cbTripped.state = BState.OPEN
    ∧ (openResume cbTripped (Except.ok false)).breaker.state = BState.OPEN
    ∧ (openResume cbTripped (Except.ok false)).armedDelay =
        some (min cbTripped.maxResetTimeout (cbTripped.resetTimeout * 2))
    ∧ "halfOpen" ∉
        (openResume cbTripped (Except.ok false)).breaker.emitted.drop cbTripped.emitted.length :=
  ⟨rfl, (spec_C8 cbTripped rfl).1, (spec_C8 cbTripped rfl).2.1,
   (spec_C8 cbTripped rfl).2.2.2.1⟩

/-- Claim C9: across every single breaker operation, errorCount is set
to 0 exactly by the steps that run close() (observable as a "close"
notification, and landing in state CLOSED), and every other step can
only preserve or increase errorCount — no transition into OPEN,
HALF_OPEN or HALF_CLOSED resets it. -/
theorem spec_C9 (b : Breaker ε) (op : Op ε α) :
    ("close" ∈ (applyOp b op).emitted.drop b.emitted.length →
      ((applyOp b op).errorCount = 0 ∧ (applyOp b op).state = .CLOSED))
    ∧ ("close" ∉ (applyOp b op).emitted.drop b.emitted.length →
      b.errorCount ≤ (applyOp b op).errorCount) := by
  cases op with
  | executeOp o =>
      simp only [applyOp]
      cases hs : b.state with
      | OPEN =>
          rw [execute_open b o hs]
          exact c9_nonclose b b [] (by simp) (by simp) (Nat.le_refl _)
      | HALF_CLOSED =>
          rw [execute_halfClosed b o hs]
          exact c9_nonclose b b [] (by simp) (by simp) (Nat.le_refl _)
      | HALF_OPEN =>
          cases o with
          | ok v =>
              rw [execute_halfOpen_ok b v hs]
              refine ⟨fun _ => ⟨rfl, rfl⟩, fun hno => absurd ?_ hno⟩
              show "close" ∈ ((b.emitted ++ ["halfClose"]) ++ ["close"]).drop b.emitted.length
              rw [List.append_assoc, drop_self_append]
              decide
          | error e =>
              rw [execute_halfOpen_error b e hs]
              obtain ⟨hem, hcnt⟩ := onError_step_facts (halfClose b) e
              rcases hem with hem | hem
              · exact c9_nonclose b _ ["halfClose"] (by rw [hem]; rfl) (by decide) hcnt
              · exact c9_nonclose b _ ["halfClose", "open"]
                  (by rw [hem]; show (b.emitted ++ ["halfClose"]) ++ ["open"] = _; simp)
                  (by decide) hcnt
      | CLOSED =>
          cases o with
          | ok v =>
              rw [execute_closed_ok b v hs]
              exact c9_nonclose b b [] (by simp) (by simp) (Nat.le_refl _)
          | error e =>
              rw [execute_closed_error b e hs]
              obtain ⟨hem, hcnt⟩ := onError_step_facts b e
              rcases hem with hem | hem
              · exact c9_nonclose b _ [] (by rw [hem, List.append_nil]) (by simp) hcnt
              · exact c9_nonclose b _ ["open"] hem (by decide) hcnt
  | openOp =>
      simp only [applyOp]
      exact c9_nonclose b _ ["open"] rfl (by decide) (Nat.le_refl _)
  | closeOp =>
      simp only [applyOp]
      refine ⟨fun _ => ⟨rfl, rfl⟩, fun hno => absurd ?_ hno⟩
      show "close" ∈ (b.emitted ++ ["close"]).drop b.emitted.length
      rw [drop_self_append]
      decide
  | halfOpenOp =>
      simp only [applyOp]
      exact c9_nonclose b _ ["halfOpen"] rfl (by decide) (Nat.le_refl _)
  | halfCloseOp =>
      simp only [applyOp]
      exact c9_nonclose b _ ["halfClose"] rfl (by decide) (Nat.le_refl _)
  | onErrorOp e =>
      simp only [applyOp]
      obtain ⟨hem, hcnt⟩ := onError_step_facts b e
      rcases hem with hem | hem
      · exact c9_nonclose b _ [] (by rw [hem, List.append_nil]) (by simp) hcnt
      · exact c9_nonclose b _ ["open"] hem (by decide) hcnt
  | delayedCheckOp c =>
      simp only [applyOp]
      cases c with
      | ok bv =>
          cases bv with
          | true => exact c9_nonclose b _ ["halfOpen"] rfl (by decide) (Nat.le_refl _)
          | false => exact c9_nonclose b _ ["open"] rfl (by decide) (Nat.le_refl _)
      | error e =>
          have hor : (openResume b (Except.error e)).breaker = (onError b e).breaker := rfl
          rw [hor]
          obtain ⟨hem, hcnt⟩ := onError_step_facts b e
          rcases hem with hem | hem
          · exact c9_nonclose b _ [] (by rw [hem, List.append_nil]) (by simp) hcnt
          · exact c9_nonclose b _ ["open"] hem (by decide) hcnt

/-- Witness for C9: the close() step on a default breaker emits "close"
and lands at errorCount 0 in state CLOSED. -/
theorem spec_C9_w :
    "close" ∈ (applyOp cbDefault (Op.closeOp : Op Nat Nat)).emitted.drop cbDefault.emitted.length
    ∧ (applyOp cbDefault (Op.closeOp : Op Nat Nat)).errorCount = 0
    ∧ (applyOp cbDefault (Op.closeOp : Op Nat Nat)).state = BState.CLOSED := by
  have h := (spec_C9 cbDefault (Op.closeOp : Op Nat Nat)).1 (by decide)
  exact ⟨by decide, h.1, h.2⟩

end Circuit
